import Mathlib

/-!
Shallow embedding of the Restaurant Assistant recommendation and conversation
engine (app/core/meal_selector.py, app/core/allergy_checker.py,
app/core/conversation_manager.py, app/services/llm_service.py), together with
theorems settling the behavioural claims about it.

Conventions of the embedding:
* Python floats are modelled as rationals (`Rat`); the claims under study are
  about exact comparisons, interval bounds and list shapes, which the rational
  idealisation preserves.
* Python string operations are modelled over `List Char`: `py_lower` is
  `str.lower` and `pyIn needle hay` is Python's `needle in hay` substring test.
* Fallible Python code (attribute errors, index errors, pydantic validation
  errors, provider failures) is modelled with `Except String`.
* External collaborators (the catalog accessor and the two text-generation
  backends) are passed in as explicit arguments/oracles, matching the spec's
  component boundaries.
* String literals reproduce the source texts except that apostrophes are
  written with the `\x27` escape.
-/

/-- Python's `needle in hay` on lists of characters: `needle` occurs
contiguously inside `hay` (the empty needle occurs everywhere). -/
def pyInAux (needle : List Char) : List Char → Bool
  | [] => needle.isEmpty
  | c :: rest => List.isPrefixOf needle (c :: rest) || pyInAux needle rest

/-- Python's `needle in hay` substring test on strings. -/
def pyIn (needle hay : String) : Bool := pyInAux needle.data hay.data

/-- Python's `str.lower()` (ASCII case folding, as used by the sources). -/
def py_lower (s : String) : String := ⟨s.data.map Char.toLower⟩

deriving instance DecidableEq for Except

/-- app/models/schemas.py `UserPreferences`: independent optional preference
facets.  `dietary_restrictions` holds the string values of the
`DietaryRestriction` enum; `price_range` is `Optional[tuple[float, float]]`
(pydantic imposes no ordering or sign constraint on it); `spice_preference`
is `Optional[int]` constrained by pydantic to `1 ≤ · ≤ 5` when present. -/
structure UserPreferences where
  dietary_restrictions : List String := []
  allergies : List String := []
  price_range : Option (Rat × Rat) := none
  favorite_cuisines : List String := []
  disliked_ingredients : List String := []
  spice_preference : Option Int := none
  dislikes : List String := []
deriving DecidableEq, Repr

/-- app/models/schemas.py `UserPreferences()` with every field defaulted. -/
def default_preferences : UserPreferences := {}

/-- app/models/schemas.py `MenuItem`.  The pydantic model declares exactly the
fields below plus `nutritional_info`, `preparation_time` and `image_url`,
which no embedded operation ever reads successfully (the one reader also reads
the undeclared attribute `cuisine_type` first and fails there); note that the
model declares no `cuisine_type` field, so pydantic drops that key from the
input data and attribute access on it raises `AttributeError`. -/
structure MenuItem where
  id : String
  name : String
  description : String
  price : Rat
  category : String
  ingredients : List String
  allergens : List String
  spice_level : Int
  is_vegetarian : Bool
  is_vegan : Bool
  is_gluten_free : Bool
  is_dairy_free : Bool
  available : Bool
  popularity_score : Rat
deriving DecidableEq, Repr

/-- app/models/schemas.py `MealRecommendation` (the fields the engine uses). -/
structure MealRecommendation where
  meal : MenuItem
  confidence_score : Rat
  reasoning : String
  alternatives : List MenuItem
deriving DecidableEq, Repr

/-! ## Allergy checker (app/core/allergy_checker.py) -/

/-- `AllergyChecker._get_allergen_severity`: first severity tier whose list
contains the lowercased allergen, else "unknown". -/
def allergen_severity (allergen : String) : String :=
  let a := py_lower allergen
  if ["peanuts", "tree nuts", "shellfish", "fish"].contains a then "high"
  else if ["milk", "eggs", "soy", "wheat"].contains a then "medium"
  else if ["sesame", "sulfites", "celery", "mustard"].contains a then "low"
  else "unknown"

/-- `AllergyChecker.allergen_synonyms.get(allergy_norm, [])`: the fixed
synonym dictionary built in `AllergyChecker.__init__`. -/
def allergen_synonyms (allergen : String) : List String :=
  if allergen == "dairy" then ["milk", "cheese", "butter", "cream", "yogurt", "lactose"]
  else if allergen == "gluten" then ["wheat", "barley", "rye", "oats", "flour"]
  else if allergen == "nuts" then ["tree nuts", "almonds", "walnuts", "pecans", "cashews", "pistachios"]
  else if allergen == "peanuts" then ["groundnuts"]
  else if allergen == "shellfish" then ["crab", "lobster", "shrimp", "prawns", "mussels", "clams"]
  else if allergen == "fish" then ["salmon", "tuna", "cod", "mackerel"]
  else if allergen == "eggs" then ["egg", "albumen"]
  else if allergen == "soy" then ["soya", "soybeans", "tofu", "tempeh"]
  else if allergen == "sesame" then ["sesame seeds", "tahini"]
  else []

/-- `AllergyChecker._get_allergen_variations`: the fixed variation
dictionary, looked up on the lowercased allergen name. -/
def allergen_variations (allergen : String) : List String :=
  let a := py_lower allergen
  if a == "peanuts" then ["peanut", "arachis", "groundnut"]
  else if a == "tree nuts" then ["almond", "cashew", "walnut", "pecan", "hazelnut", "brazil nut"]
  else if a == "shellfish" then ["shrimp", "crab", "lobster", "prawn", "crayfish"]
  else if a == "fish" then ["salmon", "tuna", "cod", "halibut", "anchovy"]
  else if a == "milk" then ["dairy", "lactose", "whey", "casein"]
  else if a == "eggs" then ["egg", "albumin", "ovalbumin"]
  else if a == "soy" then ["soya", "soybean", "edamame"]
  else if a == "wheat" then ["gluten", "flour", "semolina"]
  else if a == "sesame" then ["sesame seed", "tahini"]
  else if a == "sulfites" then ["sulphite", "sulfite", "sulphur dioxide"]
  else if a == "celery" then ["celery seed", "celery salt"]
  else if a == "mustard" then ["mustard seed", "mustard powder"]
  else []

/-- One entry of the list returned by
`AllergyChecker._check_ingredient_allergens`. -/
structure AllergenMatch where
  allergen : String
  severity : String
  match_type : String
deriving DecidableEq, Repr

/-- The per-allergy body of the loop in
`AllergyChecker._check_ingredient_allergens`: a direct substring match
appends one "direct" entry and `continue`s; otherwise the synonym pass and
the variation pass each append at most one entry (the synonym pass does not
`continue`, so both can fire for the same allergy). -/
def check_one_allergy (ingredient_norm : String) (allergy : String) : List AllergenMatch :=
  let allergy_norm := py_lower allergy
  if pyIn allergy_norm ingredient_norm then
    [⟨allergy_norm, allergen_severity allergy_norm, "direct"⟩]
  else
    (if (allergen_synonyms allergy_norm).any (fun s => pyIn s ingredient_norm) then
      [⟨allergy_norm, allergen_severity allergy_norm, "synonym"⟩] else [])
    ++ (if (allergen_variations allergy_norm).any (fun v => pyIn v ingredient_norm) then
      [⟨allergy_norm, allergen_severity allergy_norm, "variation"⟩] else [])

/-- `AllergyChecker._check_ingredient_allergens`: lowercases the ingredient
(the source lowercases it twice) and accumulates matches over the declared
allergies in order. -/
def check_ingredient_allergens (ingredient : String) (allergies : List String) : List AllergenMatch :=
  let ingredient_norm := py_lower (py_lower ingredient)
  allergies.flatMap (check_one_allergy ingredient_norm)

/-- The `is_safe` flag computed per meal inside `AllergyChecker.filter_allergens`:
it stays `True` exactly when no ingredient yields any allergen match. -/
def meal_is_safe (meal : MenuItem) (allergies : List String) : Bool :=
  meal.ingredients.all (fun ing => (check_ingredient_allergens ing allergies).isEmpty)

/-- `AllergyChecker.filter_allergens`: with no declared allergies the input
list is returned unchanged; otherwise the safe meals are kept in order. -/
def filter_allergens (meals : List MenuItem) (allergies : List String) : List MenuItem :=
  if allergies.isEmpty then meals
  else meals.filter (fun meal => meal_is_safe meal allergies)

/-! ## Preference scorer and recommender (app/core/meal_selector.py) -/

/-- The per-restriction test of the dietary loop in
`MealSelector._calculate_preference_score`: an if/elif chain over the four
dietary flags (any other restriction string contributes nothing). -/
def dietary_matches (item : MenuItem) (restriction : String) : Bool :=
  (restriction == "vegetarian" && item.is_vegetarian) ||
  (restriction == "vegan" && item.is_vegan) ||
  (restriction == "gluten_free" && item.is_gluten_free) ||
  (restriction == "dairy_free" && item.is_dairy_free)

/-- Price-range block of `MealSelector._calculate_preference_score`
(weight 0.3): full credit inside the range, otherwise
`max(0, 1 - price_diff / max_price)` with `price_diff` the distance to the
nearer endpoint.  Returns (score contribution, weight contribution). -/
def price_facet (item : MenuItem) (preferences : UserPreferences) : Rat × Rat :=
  match preferences.price_range with
  | none => (0, 0)
  | some (min_price, max_price) =>
    let price_score : Rat :=
      if min_price ≤ item.price ∧ item.price ≤ max_price then 1
      else max 0 (1 - min |item.price - min_price| |item.price - max_price| / max_price)
    (price_score * (3/10), 3/10)

/-- Dietary-restriction block of `MealSelector._calculate_preference_score`
(weight 0.25): fraction of the requested restrictions the item satisfies. -/
def dietary_facet (item : MenuItem) (preferences : UserPreferences) : Rat × Rat :=
  if preferences.dietary_restrictions.isEmpty then (0, 0)
  else
    let dietary_score : Rat := (preferences.dietary_restrictions.countP (dietary_matches item) : ℕ)
    (dietary_score / (preferences.dietary_restrictions.length : Rat) * (1/4), 1/4)

/-- Spice block of `MealSelector._calculate_preference_score` (weight 0.15):
`max(0, 1 - |item.spice_level - preference| / 5)`.  The Python guard
`if preferences.spice_preference:` skips the block when the preference is
`None` or the (falsy) integer 0. -/
def spice_facet (item : MenuItem) (preferences : UserPreferences) : Rat × Rat :=
  match preferences.spice_preference with
  | none => (0, 0)
  | some sp =>
    if sp == 0 then (0, 0)
    else
      let spice_score : Rat := max 0 (1 - ((item.spice_level - sp).natAbs : Rat) / 5)
      (spice_score * (3/20), 3/20)

/-- Cuisine block of `MealSelector._calculate_preference_score` (weight 0.2):
fraction of the favourite cuisines that occur, lowercased, as substrings of
the item's description. -/
def cuisine_facet (item : MenuItem) (preferences : UserPreferences) : Rat × Rat :=
  if preferences.favorite_cuisines.isEmpty then (0, 0)
  else
    let cuisine_score : Rat :=
      (preferences.favorite_cuisines.countP (fun c => pyIn (py_lower c) (py_lower item.description)) : ℕ)
    (cuisine_score / (preferences.favorite_cuisines.length : Rat) * (1/5), 1/5)

/-- Disliked-ingredients block of `MealSelector._calculate_preference_score`
(weight 0.1): 0 if some disliked ingredient equals (lowercased) one of the
item's ingredients, else 1. -/
def disliked_ingredients_facet (item : MenuItem) (preferences : UserPreferences) : Rat × Rat :=
  if preferences.disliked_ingredients.isEmpty then (0, 0)
  else
    let disliked_score : Rat :=
      if preferences.disliked_ingredients.any
          (fun d => (item.ingredients.map py_lower).contains (py_lower d)) then 0 else 1
    (disliked_score * (1/10), 1/10)

/-- Number of dislikes that match the item (name, description or any
ingredient, lowercased substring test); each match halves the accumulated
score in `MealSelector._calculate_preference_score`. -/
def dislike_hits (item : MenuItem) (preferences : UserPreferences) : Nat :=
  preferences.dislikes.countP (fun d =>
    pyIn (py_lower d) (py_lower item.name) || pyIn (py_lower d) (py_lower item.description) ||
    item.ingredients.any (fun ing => pyIn (py_lower d) (py_lower ing)))

/-- `MealSelector._calculate_preference_score`: sum of the facet
contributions, halved once per matching dislike, normalised by the sum of
the weights actually applied (0 if no facet applied). -/
def calculate_preference_score (item : MenuItem) (preferences : UserPreferences) : Rat :=
  let p := price_facet item preferences
  let d := dietary_facet item preferences
  let sp := spice_facet item preferences
  let c := cuisine_facet item preferences
  let di := disliked_ingredients_facet item preferences
  let score := p.1 + d.1 + sp.1 + c.1 + di.1
  let max_score := p.2 + d.2 + sp.2 + c.2 + di.2
  let score := score * ((1/2 : Rat) ^ dislike_hits item preferences)
  if 0 < max_score then score / max_score else 0

/-- The scored pairs built at the top of `MealSelector.get_recommendations`. -/
def scored_items (all_items : List MenuItem) (preferences : UserPreferences) :
    List (MenuItem × Rat) :=
  all_items.map (fun item => (item, calculate_preference_score item preferences))

/-- Stable descending insertion used by `score_sort`: an element is placed
before the first existing element of strictly smaller score, so earlier
elements stay first on ties. -/
def insert_desc (x : MenuItem × Rat) : List (MenuItem × Rat) → List (MenuItem × Rat)
  | [] => [x]
  | y :: ys => if y.2 ≤ x.2 then x :: y :: ys else y :: insert_desc x ys

/-- `scored_items.sort(key=lambda x: x[1], reverse=True)`: Python's stable
sort, descending by score, realised as a stable insertion sort (extensionally
equal to any stable descending sort of the same list). -/
def score_sort : List (MenuItem × Rat) → List (MenuItem × Rat)
  | [] => []
  | x :: xs => insert_desc x (score_sort xs)

/-- The attribute table of the `MealSelector` class: its defined methods.
`get_recommendations` asks for `_generate_recommendation_reasoning`, which is
not among them (the defined method is `_generate_recommendation_reasons`), so
that lookup raises `AttributeError`. -/
def meal_selector_attributes : List String :=
  ["_calculate_preference_score", "_generate_recommendation_reasons",
   "get_recommendations", "get_similar_items"]

/-- Python attribute lookup on a `MealSelector` instance. -/
def lookup_meal_selector_attribute (name : String) : Except String String :=
  if meal_selector_attributes.contains name then .ok name
  else .error ("AttributeError: MealSelector object has no attribute " ++ name)

/-- One element of the `alternatives` list comprehension in
`MealSelector.get_recommendations`: `MenuItem(**alt_item)` keyword-unpacks
`alt_item`, which is a `MenuItem` model instance rather than a mapping, so
Python raises `TypeError` before any field is read. -/
def build_alternative (_alt : MenuItem × Rat) : Except String MenuItem :=
  .error "TypeError: argument of type MenuItem is not a mapping"

/-- The `alternatives` list comprehension itself (empty slice succeeds with
an empty list; otherwise the first element already fails). -/
def build_alternatives : List (MenuItem × Rat) → Except String (List MenuItem)
  | [] => .ok []
  | alt :: rest =>
    match build_alternative alt with
    | .error e => .error e
    | .ok m =>
      match build_alternatives rest with
      | .error e => .error e
      | .ok ms => .ok (m :: ms)

/-- One iteration of the recommendation loop in
`MealSelector.get_recommendations`: evaluate the alternatives comprehension,
then look up `self._generate_recommendation_reasoning` (an attribute the
class does not define) to build the `MealRecommendation`.  The `.ok` branch
of the lookup is unreachable; the loop body always raises. -/
def build_recommendation (alts : List (MenuItem × Rat)) (item : MenuItem) (score : Rat) :
    Except String MealRecommendation :=
  match build_alternatives alts with
  | .error e => .error e
  | .ok alternatives =>
    match lookup_meal_selector_attribute "_generate_recommendation_reasoning" with
    | .error e => .error e
    | .ok _ => .ok { meal := item, confidence_score := score, reasoning := "", alternatives }

/-- The recommendation loop over the top-`limit` scored items. -/
def build_recommendations (alts : List (MenuItem × Rat)) :
    List (MenuItem × Rat) → Except String (List MealRecommendation)
  | [] => .ok []
  | p :: rest =>
    match build_recommendation alts p.1 p.2 with
    | .error e => .error e
    | .ok r =>
      match build_recommendations alts rest with
      | .error e => .error e
      | .ok rs => .ok (r :: rs)

/-- The body of the `try` block of `MealSelector.get_recommendations`:
score, sort descending, build a recommendation for each of the first
`limit` items with alternatives taken from `scored_items[limit:limit+2]`. -/
def get_recommendations_attempt (all_items : List MenuItem) (preferences : UserPreferences)
    (limit : Nat) : Except String (List MealRecommendation) :=
  let sorted := score_sort (scored_items all_items preferences)
  let alts := (sorted.drop limit).take 2
  build_recommendations alts (sorted.take limit)

/-- `MealSelector.get_recommendations` (default `limit=3`): the catch-all
`except Exception` handler turns any failure of the loop into `[]`. -/
def get_recommendations (all_items : List MenuItem) (preferences : UserPreferences)
    (limit : Nat := 3) : List MealRecommendation :=
  match get_recommendations_attempt all_items preferences limit with
  | .ok recs => recs
  | .error _ => []

/-! ## Conversation manager (app/core/conversation_manager.py) -/

/-- app/models/schemas.py `ChatMessage` (role, content, optional metadata). -/
structure ChatMessage where
  role : String
  content : String
  metadata : Option String := none
deriving DecidableEq, Repr

/-- app/models/schemas.py `ChatResponse` (the fields the engine sets). -/
structure ChatResponse where
  message : String
  session_id : String
  suggested_meals : Option (List MenuItem) := none
  follow_up_questions : Option (List String) := none
  metadata : Option String := none
deriving DecidableEq, Repr

/-- One entry of `ConversationManager.active_sessions`: message history,
current preferences, the cached `filtered_meals` list (a list of
`MealRecommendation` objects) and the `shown_index` cursor, which is absent
(`none`) until the first `process_message` turn initialises it. -/
structure Session where
  messages : List ChatMessage
  preferences : UserPreferences
  filtered_meals : List MealRecommendation
  shown_index : Option Nat
deriving DecidableEq, Repr

/-- conversation_manager.preferences_are_sufficient: at least three of the six
preference categories are set (numeric spice preference counts whenever it is
not `None`; a present price range always has both components). -/
def preferences_are_sufficient (preferences : UserPreferences) : Bool :=
  let count :=
    (if preferences.dietary_restrictions.isEmpty then 0 else 1) +
    (if preferences.favorite_cuisines.isEmpty then 0 else 1) +
    (if preferences.price_range.isSome then 1 else 0) +
    (if preferences.allergies.isEmpty then 0 else 1) +
    (if preferences.spice_preference.isSome then 1 else 0) +
    (if preferences.dislikes.isEmpty then 0 else 1)
  3 ≤ count

/-- The duck-typed call `AllergyChecker.filter_allergens(meals=filtered_meals,
allergies=...)` made by `ConversationManager` with a list of
`MealRecommendation` objects: with no declared allergies the list passes
through unfiltered, and an empty list survives the loop, but a non-empty list
makes the loop read `meal.ingredients`, an attribute `MealRecommendation`
does not have, raising `AttributeError` on the first element. -/
def filter_allergens_on_recommendations (meals : List MealRecommendation)
    (allergies : List String) : Except String (List MealRecommendation) :=
  if allergies.isEmpty then .ok meals
  else
    match meals with
    | [] => .ok []
    | _ :: _ => .error "AttributeError: MealRecommendation object has no attribute ingredients"

/-- `ConversationManager._update_filtered_meals`: recompute the cached
`filtered_meals` for the given preferences (`[]` when the preferences are not
sufficient; otherwise the recommendations, allergen-filtered when allergies
are declared). -/
def update_filtered_meals (all_items : List MenuItem) (preferences : UserPreferences) :
    Except String (List MealRecommendation) :=
  if preferences_are_sufficient preferences then
    let filtered := get_recommendations all_items preferences 3
    if preferences.allergies.isEmpty then .ok filtered
    else filter_allergens_on_recommendations filtered preferences.allergies
  else .ok []

/-- Oracle for the behaviour of the external text-generation layer during one
conversation turn: `welcome` abstracts `generate_welcome_message` (which
catches every failure and always returns a string), `gen_response` abstracts
`LLMService.generate_response` for the more-info branch (which can raise),
and the `main_*`/`follow_ups` fields abstract `LLMService.process_message`
and `generate_follow_up_questions` (both catch every failure and always
return a well-formed payload). -/
structure LLMOracle where
  welcome : String
  gen_response : Except String String
  main_message : String
  main_should_recommend : Bool
  main_metadata : Option String
  follow_ups : List String
deriving DecidableEq, Repr

/-- The fixed follow-up question attached to every direct recommendation. -/
def fixed_follow_up : List String :=
  ["Would you like to order this meal, add a side, or see more options?"]

/-- The follow-up question of the exhausted branch. -/
def exhausted_follow_up : List String :=
  ["Would you like to change your preferences or try a different cuisine?"]

/-- The welcome-path follow-up questions of `start_conversation`. -/
def start_follow_up_questions : List String :=
  ["What type of cuisine are you in the mood for?",
   "Do you have any dietary restrictions?",
   "What\x27s your preferred price range?"]

/-- The direct-recommendation message template. -/
def recommend_message (meal : MenuItem) : String :=
  "I recommend the " ++ meal.name ++ ": " ++ meal.description ++ " ($" ++
  toString meal.price ++ "). Would you like to order this, add it to your order, " ++
  "or see more options? Just reply \x27order\x27 to confirm, or let me know if you " ++
  "want something else."

/-- The more-options in-bounds message template. -/
def how_about_message (meal : MenuItem) : String :=
  "How about " ++ meal.name ++ ": " ++ meal.description ++ " ($" ++
  toString meal.price ++ ")? Would you like to order this, add it to your order, " ++
  "or see more options? Just reply \x27order\x27 to confirm, or let me know if you " ++
  "want something else."

/-- The exhausted-branch message. -/
def exhausted_message : String :=
  "I\x27ve shown you all the best matches. Would you like to adjust your " ++
  "preferences or try a different cuisine?"

/-- The fixed more-info phrase list of `ConversationManager.process_message`. -/
def more_info_phrases : List String :=
  ["more about", "information", "details", "tell me more", "what else",
   "nutritional", "describe", "explain", "recommend side", "side dish"]

/-- The fixed more-options phrase list of `ConversationManager.process_message`. -/
def more_options_phrases : List String :=
  ["more options", "see more options", "next", "another", "show me more"]

/-- `any(phrase in message.lower() for phrase in phrases)`. -/
def matches_any (phrases : List String) (message : String) : Bool :=
  phrases.any (fun phrase => pyIn phrase (py_lower message))

/-- `ConversationManager.start_conversation`: create a session (empty history,
supplied or default preferences, no `shown_index` yet), compute
`filtered_meals`, and either surface the first recommendation directly or
fall back to the generated welcome message with the three fixed follow-up
questions. -/
def start_conversation (oracle : LLMOracle) (all_items : List MenuItem) (sid : String)
    (preferences : Option UserPreferences) : Except String (Session × ChatResponse) :=
  let prefs := preferences.getD default_preferences
  match update_filtered_meals all_items prefs with
  | .error e => .error e
  | .ok fm =>
    let session : Session :=
      { messages := [], preferences := prefs, filtered_meals := fm, shown_index := none }
    match fm with
    | first :: _ =>
      .ok (session,
        { message := recommend_message first.meal, session_id := sid,
          suggested_meals := some (fm.map (·.meal)),
          follow_up_questions := some fixed_follow_up, metadata := none })
    | [] =>
      .ok (session,
        { message := oracle.welcome, session_id := sid, suggested_meals := none,
          follow_up_questions := some start_follow_up_questions, metadata := none })

/-- The part of `ConversationManager.process_message` that follows the
optional preference update, mirroring the source in order: append the user
message, initialise `shown_index` to 0 only if absent, read the current meal
(an out-of-range cursor over a non-empty list raises `IndexError`), then
dispatch on the two phrase lists, the direct-recommend branch and the
generation fallback.  Reading `current_meal.cuisine_type` in the more-info
context builder raises `AttributeError` because the `MenuItem` model does
not declare that field; handing a non-empty list of `MealRecommendation`
objects to `ChatResponse.suggested_meals` (typed `Optional[List[MenuItem]]`)
fails pydantic validation. -/
def process_turn (oracle : LLMOracle) (all_items : List MenuItem) (sid : String)
    (s1 : Session) (message : String) : Except String (Session × ChatResponse) :=
    let s2 : Session :=
      { s1 with messages := s1.messages ++ [{ role := "user", content := message }] }
    let s3 : Session :=
      if s2.shown_index.isNone then { s2 with shown_index := some 0 } else s2
    let idx := s3.shown_index.getD 0
    let filtered := s3.filtered_meals
    let current : Except String (Option MenuItem) :=
      if filtered.isEmpty then .ok none
      else
        match filtered.get? idx with
        | some r => .ok (some r.meal)
        | none => .error "IndexError: list index out of range"
    match current with
    | .error e => .error e
    | .ok current_meal =>
      if matches_any more_info_phrases message then
        match current_meal with
        | some _ => .error "AttributeError: MenuItem object has no attribute cuisine_type"
        | none =>
          match oracle.gen_response with
          | .error e => .error e
          | .ok text =>
            .ok (s3,
              { message := text, session_id := sid,
                suggested_meals := some (filtered.map (·.meal)),
                follow_up_questions := some fixed_follow_up, metadata := none })
      else if matches_any more_options_phrases message then
        let s4 : Session := { s3 with shown_index := some (idx + 1) }
        if idx + 1 < filtered.length then
          match filtered.get? (idx + 1) with
          | some r =>
            .ok (s4,
              { message := how_about_message r.meal, session_id := sid,
                suggested_meals := some (filtered.map (·.meal)),
                follow_up_questions := some fixed_follow_up, metadata := none })
          | none => .error "IndexError: list index out of range"
        else
          .ok (s4,
            { message := exhausted_message, session_id := sid,
              suggested_meals := some (filtered.map (·.meal)),
              follow_up_questions := some exhausted_follow_up, metadata := none })
      else if !filtered.isEmpty then
        match filtered.get? idx with
        | some r =>
          .ok (s3,
            { message := recommend_message r.meal, session_id := sid,
              suggested_meals := some (filtered.map (·.meal)),
              follow_up_questions := some fixed_follow_up, metadata := none })
        | none => .error "IndexError: list index out of range"
      else
        let suggested : Option (List MealRecommendation) :=
          if oracle.main_should_recommend then some (get_recommendations all_items s3.preferences 3)
          else none
        let filtered_suggested : Except String (Option (List MealRecommendation)) :=
          match suggested with
          | some (r :: rs) =>
            match filter_allergens_on_recommendations (r :: rs) s3.preferences.allergies with
            | .error e => .error e
            | .ok l => .ok (some l)
          | some [] => .ok (some [])
          | none => .ok none
        match filtered_suggested with
        | .error e => .error e
        | .ok fs =>
          let validated : Except String (Option (List MenuItem)) :=
            match fs with
            | none => .ok none
            | some [] => .ok (some [])
            | some (_ :: _) =>
              .error "ValidationError: suggested_meals entries are MealRecommendation, not MenuItem"
          match validated with
          | .error e => .error e
          | .ok sm =>
            let response : ChatResponse :=
              { message := oracle.main_message, session_id := sid, suggested_meals := sm,
                follow_up_questions := some oracle.follow_ups, metadata := oracle.main_metadata }
            let s5 : Session :=
              { s3 with messages := s3.messages ++
                  [{ role := "assistant", content := oracle.main_message,
                     metadata := oracle.main_metadata }] }
            .ok (s5, response)

/-- `ConversationManager.process_message` for one existing session: when a
preference payload is supplied, replace the session preferences and
recompute `filtered_meals` (without touching `shown_index`), then run the
rest of the turn. -/
def process_message (oracle : LLMOracle) (all_items : List MenuItem) (sid : String)
    (s0 : Session) (message : String) (preferences : Option UserPreferences) :
    Except String (Session × ChatResponse) :=
  match preferences with
  | some p =>
    match update_filtered_meals all_items p with
    | .error e => .error e
    | .ok fm => process_turn oracle all_items sid
        { s0 with preferences := p, filtered_meals := fm } message
  | none => process_turn oracle all_items sid s0 message

/-! ## Generation orchestrator (app/services/llm_service.py) -/

/-- app/services/llm_service.py `LLMProvider`. -/
inductive LLMProvider where
  | gemini
  | ollama
deriving DecidableEq, Repr

/-- The configuration fields of app/config.py `Settings` that
`LLMService.generate_response` reads (`use_ollama_fallback` defaults to
`True`, `fallback_threshold_errors` to 2; both are environment-overridable). -/
structure LLMSettings where
  use_ollama_fallback : Bool := true
  fallback_threshold_errors : Nat := 2
deriving DecidableEq, Repr

/-- The mutable provider state of an `LLMService` instance:
`consecutive_errors`, `current_provider`, and whether each backend service
object was successfully initialised (`self.gemini_service`/
`self.ollama_service` are not `None`). -/
structure LLMState where
  consecutive_errors : Nat
  current_provider : LLMProvider
  gemini_available : Bool
  ollama_available : Bool
deriving DecidableEq, Repr

/-- Outcome of one call to an external generation backend. -/
inductive LLMCallOutcome where
  | success (text : String)
  | failure (message : String)
deriving DecidableEq, Repr

/-- The dictionary returned by `LLMService.generate_response`
(`fallback_used` is read with `.get("fallback_used", False)`, so it is
`false` except in the explicit fallback path). -/
structure LLMGenResult where
  response : String
  provider : LLMProvider
  fallback_used : Bool
deriving DecidableEq, Repr

/-- The pre-call switch at the top of `LLMService.generate_response`: if
`consecutive_errors >= settings.fallback_threshold_errors` and the fallback
setting is on, force `current_provider = OLLAMA`. -/
def force_fallback (settings : LLMSettings) (st : LLMState) : LLMState :=
  if settings.fallback_threshold_errors ≤ st.consecutive_errors ∧ settings.use_ollama_fallback then
    { st with current_provider := .ollama }
  else st

/-- `LLMService.generate_response`, given the outcomes the two backends would
produce for this call: try Gemini when it is the active, initialised provider
(success resets the error counter; failure increments it and falls back to
Ollama when `use_fallback`, the fallback setting and the Ollama service all
allow it); otherwise try Ollama first and, on failure, probe Gemini as
recovery (success switches the sticky provider back and resets the counter).
Returns the updated provider state and either the response dictionary or the
raised error. -/
def generate_response (settings : LLMSettings) (st0 : LLMState) (use_fallback : Bool)
    (gemini : LLMCallOutcome) (ollama : LLMCallOutcome) :
    LLMState × Except String LLMGenResult :=
  let st := force_fallback settings st0
  if st.current_provider = .gemini ∧ st.gemini_available then
    match gemini with
    | .success text => ({ st with consecutive_errors := 0 }, .ok ⟨text, .gemini, false⟩)
    | .failure gemini_error =>
      let st := { st with consecutive_errors := st.consecutive_errors + 1 }
      if use_fallback ∧ settings.use_ollama_fallback ∧ st.ollama_available then
        match ollama with
        | .success text => (st, .ok ⟨text, .ollama, true⟩)
        | .failure _ => (st, .error "All LLM providers failed")
      else (st, .error gemini_error)
  else
    if st.ollama_available then
      match ollama with
      | .success text => (st, .ok ⟨text, .ollama, false⟩)
      | .failure ollama_error =>
        if st.gemini_available then
          match gemini with
          | .success text =>
            ({ st with consecutive_errors := 0, current_provider := .gemini },
             .ok ⟨text, .gemini, false⟩)
          | .failure gemini_error =>
            (st, .error ("Both LLM providers failed. Ollama: " ++ ollama_error ++
              ", Gemini: " ++ gemini_error))
        else (st, .error ollama_error)
    else (st, .error "No LLM providers available")

/-! ## Spec-side scoring formulas

`claim_weighted_score` follows the specification's wording of the scoring
rule so that it can be compared with the source's
`calculate_preference_score`; `amended_weighted_score` is the corrected
formula that the source actually computes, re-expressed as a normalised
weighted sum over the applied facets. -/

/-- Modelled from the spec: the claimed scoring formula — a weighted sum over
the set facets, normalised by the sum of applied weights, with
dietary-restriction match ratio weighted 0.30, price-in-range weighted 0.25
and binary, favorite-cuisine membership weighted 0.20 and binary on whether
the item's cuisine is in the preferred set, and spice-closeness
`max(0, 1 - |itemSpice - preferredSpice| / 5)` weighted 0.15.  The source's
`MenuItem` model has no cuisine field, so the item's cuisine is passed
separately (the counterexample below leaves the cuisine facet unset, making
the parameter irrelevant). -/
def claim_weighted_score (item : MenuItem) (item_cuisine : String)
    (preferences : UserPreferences) : Rat :=
  let parts : List (Rat × Rat) :=
    (if preferences.dietary_restrictions.isEmpty then [] else
      [((preferences.dietary_restrictions.countP (dietary_matches item) : ℕ) /
          (preferences.dietary_restrictions.length : Rat), (3/10 : Rat))]) ++
    (match preferences.price_range with
     | some (mn, mx) =>
       [((if mn ≤ item.price ∧ item.price ≤ mx then (1 : Rat) else 0), (1/4 : Rat))]
     | none => []) ++
    (if preferences.favorite_cuisines.isEmpty then [] else
      [((if preferences.favorite_cuisines.contains item_cuisine then (1 : Rat) else 0), (1/5 : Rat))]) ++
    (match preferences.spice_preference with
     | some sp => [(max 0 (1 - ((item.spice_level - sp).natAbs : Rat) / 5), (3/20 : Rat))]
     | none => [])
  let num := (parts.map (fun pw => pw.1 * pw.2)).sum
  let den := (parts.map Prod.snd).sum
  if 0 < den then num / den else 0

/-- The formula the source actually computes, stated as a normalised weighted
sum over the applied facets: price 0.30 with partial credit
`max(0, 1 - min(|p-min|,|p-max|)/max)` outside the range, dietary match ratio
0.25, spice closeness 0.15 (skipped for a zero preference), the fraction of
favourite cuisines occurring as substrings of the description 0.20, a binary
disliked-ingredients facet 0.10, and one halving of the numerator per matched
dislike, all before normalisation. -/
def amended_weighted_score (item : MenuItem) (preferences : UserPreferences) : Rat :=
  let parts : List (Rat × Rat) :=
    (match preferences.price_range with
     | some (mn, mx) =>
       [((if mn ≤ item.price ∧ item.price ≤ mx then (1 : Rat)
          else max 0 (1 - min |item.price - mn| |item.price - mx| / mx)), (3/10 : Rat))]
     | none => []) ++
    (if preferences.dietary_restrictions.isEmpty then [] else
      [((preferences.dietary_restrictions.countP (dietary_matches item) : ℕ) /
          (preferences.dietary_restrictions.length : Rat), (1/4 : Rat))]) ++
    (match preferences.spice_preference with
     | some sp =>
       if sp == 0 then [] else
         [(max 0 (1 - ((item.spice_level - sp).natAbs : Rat) / 5), (3/20 : Rat))]
     | none => []) ++
    (if preferences.favorite_cuisines.isEmpty then [] else
      [((preferences.favorite_cuisines.countP
           (fun c => pyIn (py_lower c) (py_lower item.description)) : ℕ) /
          (preferences.favorite_cuisines.length : Rat), (1/5 : Rat))]) ++
    (if preferences.disliked_ingredients.isEmpty then [] else
      [((if preferences.disliked_ingredients.any
            (fun d => (item.ingredients.map py_lower).contains (py_lower d)) then (0 : Rat)
         else 1), (1/10 : Rat))])
  let num := ((parts.map (fun pw => pw.1 * pw.2)).sum) * ((1/2 : Rat) ^ dislike_hits item preferences)
  let den := (parts.map Prod.snd).sum
  if 0 < den then num / den else 0

/-! ## Concrete inputs used by the counterexamples and witnesses -/

/-- A neutral menu item whose optional-looking fields are all inert. -/
def base_item : MenuItem :=
  { id := "0", name := "Plain Dish", description := "A plain dish", price := 10,
    category := "main_course", ingredients := [], allergens := [], spice_level := 1,
    is_vegetarian := false, is_vegan := false, is_gluten_free := false,
    is_dairy_free := false, available := true, popularity_score := 0 }

/-- A fixed oracle for the generation layer (its exact values never matter to
the theorems: they are either quantified over or irrelevant to the checked
fields). -/
def oracle0 : LLMOracle :=
  { welcome := "Welcome to the restaurant.", gen_response := .ok "Here are the details.",
    main_message := "Okay.", main_should_recommend := false, main_metadata := none,
    follow_ups := [] }

/-- Vegetarian item carrying the allergen "peanuts" in its declared allergen
set (claim C1). -/
def item_with_peanuts : MenuItem :=
  { base_item with
    id := "p1", name := "Satay Skewers", is_vegetarian := true,
    allergens := ["peanuts"] }

/-- Preferences declaring a peanut allergy plus a matching dietary
restriction (claim C1). -/
def prefs_allergic : UserPreferences :=
  { dietary_restrictions := ["vegetarian"], allergies := ["peanuts"] }

/-- The vegetarian Italian dish of end-to-end scenario A, priced 14.99. -/
def margherita : MenuItem :=
  { base_item with
    id := "1", name := "Margherita Pizza",
    description := "Classic italian pizza with mozzarella and basil",
    price := 1499/100, ingredients := ["mozzarella", "tomato sauce", "basil"],
    is_vegetarian := true, popularity_score := 85/10 }

/-- The non-vegetarian dish of end-to-end scenario A, priced 12.00. -/
def chicken_dish : MenuItem :=
  { base_item with
    id := "2", name := "Grilled Chicken",
    description := "Grilled chicken breast with rice", price := 12,
    ingredients := ["chicken", "rice"], popularity_score := 92/10 }

/-- The scenario-A preferences: three facets set, hence sufficient. -/
def prefs_scenario_a : UserPreferences :=
  { dietary_restrictions := ["vegetarian"], price_range := some (10, 20),
    favorite_cuisines := ["italian"] }

/-- Preferences whose price range has a negative upper bound, which the
pydantic model accepts (claim C4 counterexample). -/
def prefs_negative_range : UserPreferences :=
  { price_range := some (-10, -5) }

/-- Preferences with an ordinary positive price range (claim C4 witness). -/
def prefs_unit_range : UserPreferences :=
  { price_range := some (10, 20) }

/-- An item priced just above the preferred range (claim C5). -/
def item_price_21 : MenuItem :=
  { base_item with id := "c5", price := 21 }

/-- Preferences with only the price facet set (claim C5). -/
def prefs_price_only : UserPreferences :=
  { price_range := some (10, 20) }

/-- A meal whose ingredient list contains "groundnut oil" (claim C7). -/
def groundnut_meal : MenuItem :=
  { base_item with
    id := "g1", name := "Stir Fry",
    ingredients := ["rice noodles", "groundnut oil", "vegetables"] }

/-- An exhausted session: empty candidate list, cursor already at 5. -/
def session_exhausted : Session :=
  { messages := [], preferences := default_preferences, filtered_meals := [],
    shown_index := some 5 }

/-- A fresh session as `start_conversation` would build it without
preferences. -/
def session_fresh : Session :=
  { messages := [], preferences := default_preferences, filtered_meals := [],
    shown_index := none }

/-- The session after sending "show me more" to `session_fresh`: the cursor
was initialised to 0 and advanced to 1 by the more-options branch. -/
def session_after_more : Session :=
  { messages := [{ role := "user", content := "show me more" }],
    preferences := default_preferences, filtered_meals := [], shown_index := some 1 }

/-- A sufficient preference payload supplied mid-conversation (claim C9). -/
def prefs_supplied : UserPreferences :=
  { dietary_restrictions := ["vegetarian"], price_range := some (10, 20),
    favorite_cuisines := ["italian"] }

/-- The session after then sending "hello there" with `prefs_supplied`: the
preferences were replaced and `filtered_meals` recomputed, but the cursor
stays at 1 instead of being reset to 0. -/
def session_after_prefs : Session :=
  { messages := [{ role := "user", content := "show me more" },
                 { role := "user", content := "hello there" },
                 { role := "assistant", content := "Okay." }],
    preferences := prefs_supplied, filtered_meals := [], shown_index := some 1 }

/-- The session produced by sending "more options" to `session_exhausted`:
the user message is appended and the cursor advances past the (empty)
candidate list. -/
def session_exhausted_next : Session :=
  { messages := [{ role := "user", content := "more options" }],
    preferences := default_preferences, filtered_meals := [], shown_index := some 6 }

/-- The reply of that exhausted turn. -/
def response_exhausted : ChatResponse :=
  { message := exhausted_message, session_id := "s", suggested_meals := some [],
    follow_up_questions := some exhausted_follow_up, metadata := none }

/-- Default LLM settings (app/config.py): fallback on, threshold 2. -/
def settings_default : LLMSettings := {}

/-- Settings with the Ollama fallback disabled, an admissible configuration
of app/config.py `Settings.use_ollama_fallback` (claim C10 counterexample). -/
def settings_no_fallback : LLMSettings := { use_ollama_fallback := false }

/-- A healthy initial provider state: no errors, Gemini active, both backends
initialised. -/
def llm_state0 : LLMState :=
  { consecutive_errors := 0, current_provider := .gemini, gemini_available := true,
    ollama_available := true }

/-! ## Helper lemmas -/

/-- Every iteration of the recommendation loop fails: either the alternatives
comprehension raises `TypeError`, or the attribute lookup raises
`AttributeError`. -/
theorem build_recommendation_error (alts : List (MenuItem × Rat)) (item : MenuItem)
    (score : Rat) : ∃ e, build_recommendation alts item score = .error e := by
  cases alts with
  | nil => exact ⟨_, rfl⟩
  | cons a l => exact ⟨_, rfl⟩

/-- A non-empty recommendation loop fails. -/
theorem build_recommendations_cons_error (alts : List (MenuItem × Rat))
    (p : MenuItem × Rat) (rest : List (MenuItem × Rat)) :
    ∃ e, build_recommendations alts (p :: rest) = .error e := by
  obtain ⟨e, he⟩ := build_recommendation_error alts p.1 p.2
  exact ⟨e, by simp [build_recommendations, he]⟩

theorem insert_desc_length (x : MenuItem × Rat) (l : List (MenuItem × Rat)) :
    (insert_desc x l).length = l.length + 1 := by
  induction l with
  | nil => rfl
  | cons y ys ih => by_cases h : y.2 ≤ x.2 <;> simp [insert_desc, h, ih]

theorem score_sort_length (l : List (MenuItem × Rat)) :
    (score_sort l).length = l.length := by
  induction l with
  | nil => rfl
  | cons x xs ih => simp [score_sort, insert_desc_length, ih]

/-- `MealSelector.get_recommendations` returns `[]` on every input: the
`except` handler catches the failure of the loop, and an empty loop yields
`[]` directly. -/
theorem get_recommendations_empty (all_items : List MenuItem)
    (preferences : UserPreferences) (limit : Nat) :
    get_recommendations all_items preferences limit = [] := by
  unfold get_recommendations get_recommendations_attempt
  cases htop : (score_sort (scored_items all_items preferences)).take limit with
  | nil => simp [htop, build_recommendations]
  | cons p rest =>
    obtain ⟨e, he⟩ := build_recommendations_cons_error
      ((score_sort (scored_items all_items preferences)).drop limit |>.take 2) p rest
    simp [htop, he]

/-- `ConversationManager._update_filtered_meals` always stores `[]`. -/
theorem update_filtered_meals_ok (all_items : List MenuItem)
    (preferences : UserPreferences) :
    update_filtered_meals all_items preferences = .ok [] := by
  unfold update_filtered_meals
  by_cases hs : preferences_are_sufficient preferences <;>
    simp [hs, get_recommendations_empty, filter_allergens_on_recommendations]

/-- Ratio bound used by the dietary and cuisine facets. -/
theorem count_ratio_bounds (k n : ℕ) (hk : k ≤ n) (hn : 0 < n) :
    0 ≤ (k : Rat) / (n : Rat) ∧ (k : Rat) / (n : Rat) ≤ 1 := by
  constructor
  · exact div_nonneg (by positivity) (by positivity)
  · rw [div_le_one (by exact_mod_cast hn)]
    exact_mod_cast hk

theorem price_facet_bounds (item : MenuItem) (preferences : UserPreferences)
    (h : ∀ mn mx, preferences.price_range = some (mn, mx) → 0 < mx) :
    0 ≤ (price_facet item preferences).1 ∧
      (price_facet item preferences).1 ≤ (price_facet item preferences).2 := by
  unfold price_facet
  rcases hpr : preferences.price_range with _ | ⟨mn, mx⟩
  · simp
  · have hmx := h mn mx hpr
    by_cases hin : mn ≤ item.price ∧ item.price ≤ mx
    · simp [hin]
      norm_num
    · simp only [hin, if_false]
      have h0 : (0 : Rat) ≤ max 0 (1 - min |item.price - mn| |item.price - mx| / mx) :=
        le_max_left _ _
      have h1 : max 0 (1 - min |item.price - mn| |item.price - mx| / mx) ≤ 1 := by
        apply max_le (by norm_num)
        have hd : 0 ≤ min |item.price - mn| |item.price - mx| / mx :=
          div_nonneg (le_min (abs_nonneg _) (abs_nonneg _)) hmx.le
        linarith
      constructor
      · exact mul_nonneg h0 (by norm_num)
      · calc max 0 (1 - min |item.price - mn| |item.price - mx| / mx) * (3/10)
            ≤ 1 * (3/10) := by
              exact mul_le_mul_of_nonneg_right h1 (by norm_num)
          _ = 3/10 := by ring

theorem dietary_facet_bounds (item : MenuItem) (preferences : UserPreferences) :
    0 ≤ (dietary_facet item preferences).1 ∧
      (dietary_facet item preferences).1 ≤ (dietary_facet item preferences).2 := by
  unfold dietary_facet
  by_cases he : preferences.dietary_restrictions.isEmpty
  · simp [he]
  · simp only [he, if_false]
    have hlen : 0 < preferences.dietary_restrictions.length := by
      cases hl : preferences.dietary_restrictions with
      | nil => simp [hl] at he
      | cons a l => simp [hl]
    obtain ⟨hr0, hr1⟩ := count_ratio_bounds
      (preferences.dietary_restrictions.countP (dietary_matches item))
      preferences.dietary_restrictions.length
      (List.countP_le_length _) hlen
    constructor
    · exact mul_nonneg hr0 (by norm_num)
    · calc (preferences.dietary_restrictions.countP (dietary_matches item) : Rat) /
            (preferences.dietary_restrictions.length : Rat) * (1/4)
          ≤ 1 * (1/4) := mul_le_mul_of_nonneg_right hr1 (by norm_num)
        _ = 1/4 := by ring

theorem spice_facet_bounds (item : MenuItem) (preferences : UserPreferences) :
    0 ≤ (spice_facet item preferences).1 ∧
      (spice_facet item preferences).1 ≤ (spice_facet item preferences).2 := by
  unfold spice_facet
  rcases preferences.spice_preference with _ | sp
  · simp
  · by_cases hz : sp == 0
    · simp [hz]
    · simp only [hz, if_false]
      have h0 : (0 : Rat) ≤ max 0 (1 - ((item.spice_level - sp).natAbs : Rat) / 5) :=
        le_max_left _ _
      have h1 : max 0 (1 - ((item.spice_level - sp).natAbs : Rat) / 5) ≤ 1 := by
        apply max_le (by norm_num)
        have : (0 : Rat) ≤ ((item.spice_level - sp).natAbs : Rat) / 5 := by positivity
        linarith
      constructor
      · exact mul_nonneg h0 (by norm_num)
      · calc max 0 (1 - ((item.spice_level - sp).natAbs : Rat) / 5) * (3/20)
            ≤ 1 * (3/20) := mul_le_mul_of_nonneg_right h1 (by norm_num)
          _ = 3/20 := by ring

theorem cuisine_facet_bounds (item : MenuItem) (preferences : UserPreferences) :
    0 ≤ (cuisine_facet item preferences).1 ∧
      (cuisine_facet item preferences).1 ≤ (cuisine_facet item preferences).2 := by
  unfold cuisine_facet
  by_cases he : preferences.favorite_cuisines.isEmpty
  · simp [he]
  · simp only [he, if_false]
    have hlen : 0 < preferences.favorite_cuisines.length := by
      cases hl : preferences.favorite_cuisines with
      | nil => simp [hl] at he
      | cons a l => simp [hl]
    obtain ⟨hr0, hr1⟩ := count_ratio_bounds
      (preferences.favorite_cuisines.countP
        (fun c => pyIn (py_lower c) (py_lower item.description)))
      preferences.favorite_cuisines.length (List.countP_le_length _) hlen
    constructor
    · exact mul_nonneg hr0 (by norm_num)
    · calc (preferences.favorite_cuisines.countP
            (fun c => pyIn (py_lower c) (py_lower item.description)) : Rat) /
            (preferences.favorite_cuisines.length : Rat) * (1/5)
          ≤ 1 * (1/5) := mul_le_mul_of_nonneg_right hr1 (by norm_num)
        _ = 1/5 := by ring

theorem disliked_facet_bounds (item : MenuItem) (preferences : UserPreferences) :
    0 ≤ (disliked_ingredients_facet item preferences).1 ∧
      (disliked_ingredients_facet item preferences).1 ≤
        (disliked_ingredients_facet item preferences).2 := by
  unfold disliked_ingredients_facet
  by_cases he : preferences.disliked_ingredients.isEmpty
  · simp [he]
  · simp only [he, if_false]
    have hb : (0:Rat) ≤ (if preferences.disliked_ingredients.any
        (fun d => (item.ingredients.map py_lower).contains (py_lower d)) then (0:Rat) else 1) ∧
        (if preferences.disliked_ingredients.any
        (fun d => (item.ingredients.map py_lower).contains (py_lower d)) then (0:Rat) else 1) ≤ 1 := by
      split <;> norm_num
    constructor
    · exact mul_nonneg hb.1 (by norm_num)
    · calc (if preferences.disliked_ingredients.any
            (fun d => (item.ingredients.map py_lower).contains (py_lower d)) then (0:Rat) else 1) * (1/10)
          ≤ 1 * (1/10 : Rat) := mul_le_mul_of_nonneg_right hb.2 (by norm_num)
        _ = 1/10 := by ring

theorem process_turn_state
    (oracle : LLMOracle) (all_items : List MenuItem) (sid : String) (s1 : Session)
    (message : String) (s2 : Session) (resp : ChatResponse)
    (h : process_turn oracle all_items sid s1 message = .ok (s2, resp)) :
    s2.preferences = s1.preferences ∧ s2.filtered_meals = s1.filtered_meals ∧
      (s2.shown_index = some (s1.shown_index.getD 0) ∨
       s2.shown_index = some (s1.shown_index.getD 0 + 1)) := by
  unfold process_turn at h
  cases hsi : s1.shown_index with
  | none =>
    rw [hsi] at h
    simp only [Option.isNone_none, if_true, Option.getD_none] at h
    repeat' split at h
    all_goals simp at h
    all_goals (obtain ⟨h1, h2⟩ := h; subst h1; subst h2; simp)
  | some i =>
    rw [hsi] at h
    simp only [Option.isNone_some, Bool.false_eq_true, if_false, Option.getD_some] at h
    repeat' split at h
    all_goals simp at h
    all_goals (obtain ⟨h1, h2⟩ := h; subst h1; subst h2; simp)

theorem process_turn_exhausted
    (oracle : LLMOracle) (all_items : List MenuItem) (sid : String) (s1 : Session)
    (message : String) (s2 : Session) (resp : ChatResponse) (i : Nat)
    (hm : matches_any more_options_phrases message = true)
    (hsi : s1.shown_index = some i)
    (hlen : s1.filtered_meals.length ≤ i)
    (h : process_turn oracle all_items sid s1 message = .ok (s2, resp)) :
    (∃ j, s2.shown_index = some j ∧ s2.filtered_meals.length ≤ j) ∧
      resp.suggested_meals = some [] := by
  unfold process_turn at h
  rw [hsi] at h
  simp only [Option.isNone_some, Bool.false_eq_true, if_false, Option.getD_some, hm] at h
  by_cases hfe : s1.filtered_meals.isEmpty
  · have hnil : s1.filtered_meals = [] := by simpa using hfe
    repeat' split at h
    all_goals try (exact absurd trivial (by assumption))
    all_goals simp at h
    all_goals (obtain ⟨h1, h2⟩ := h; subst h1; subst h2; simp [hnil])
  · have hnone : s1.filtered_meals[i]? = none := List.getElem?_eq_none hlen
    simp [hfe, hnone] at h

/-! ## Claim theorems -/

/-- Claim C6: `filter_allergens` with an empty declared-allergies list is the
identity; for every input it returns a sublist of the input (a subset
preserving the original order); and it is idempotent: filtering an
already-filtered list with the same allergies returns it unchanged. -/
theorem claim_C6_filter_allergens_algebra :
    ∀ (meals : List MenuItem) (allergies : List String),
      filter_allergens meals [] = meals ∧
      (filter_allergens meals allergies).Sublist meals ∧
      filter_allergens (filter_allergens meals allergies) allergies =
        filter_allergens meals allergies := by
  intro meals allergies
  refine ⟨by simp [filter_allergens], ?_, ?_⟩
  · unfold filter_allergens
    split
    · exact List.Sublist.refl meals
    · exact List.filter_sublist meals
  · unfold filter_allergens
    by_cases ha : allergies.isEmpty
    · simp [ha]
    · simp [ha, List.filter_filter]

/-- Claim C7: any meal whose ingredient list contains "groundnut oil" is
classified unsafe by `filter_allergens` under declared allergies
["peanuts"] and excluded from the returned list, even though "peanuts" is
not a substring of "groundnut oil" (the match is the "groundnut"
variation). -/
theorem claim_C7_variation_match :
    ∀ (meal : MenuItem) (meals : List MenuItem),
      "groundnut oil" ∈ meal.ingredients →
      meal ∉ filter_allergens meals ["peanuts"] ∧
      pyIn "peanuts" "groundnut oil" = false := by
  intro meal meals hmem
  refine ⟨?_, by decide⟩
  intro hin
  unfold filter_allergens at hin
  simp only [List.isEmpty_cons, if_false, Bool.false_eq_true] at hin
  rw [List.mem_filter] at hin
  have hsafe := hin.2
  unfold meal_is_safe at hsafe
  rw [List.all_eq_true] at hsafe
  have hclean := hsafe _ hmem
  have hne : (check_ingredient_allergens "groundnut oil" ["peanuts"]).isEmpty = false := by
    decide
  simp only [hne] at hclean
  exact Bool.false_ne_true hclean

/-- Claim C7 witness: the concrete stir-fry meal with "groundnut oil" among
its ingredients is excluded. -/
theorem claim_C7_witness :
    groundnut_meal ∉ filter_allergens [groundnut_meal, base_item] ["peanuts"] ∧
      pyIn "peanuts" "groundnut oil" = false :=
  claim_C7_variation_match groundnut_meal [groundnut_meal, base_item] (by decide)

/-- Claim C2: for every preference object and every non-empty catalog (and
in fact every catalog), `get_recommendations` returns the empty list — with
a positive limit the loop body of the `try` block always raises (undefined
method name, keyword-unpacking a model) and the catch-all handler converts
the failure to `[]` — and consequently `_update_filtered_meals` always
stores an empty `filtered_meals` list. -/
theorem claim_C2_recommendations_always_empty :
    ∀ (all_items : List MenuItem) (preferences : UserPreferences) (limit : Nat),
      (all_items ≠ [] → 0 < limit →
        ∃ e, get_recommendations_attempt all_items preferences limit = .error e) ∧
      get_recommendations all_items preferences limit = [] ∧
      update_filtered_meals all_items preferences = .ok [] := by
  intro all_items preferences limit
  refine ⟨?_, get_recommendations_empty all_items preferences limit,
    update_filtered_meals_ok all_items preferences⟩
  intro hne hlim
  have hlen : 0 < (score_sort (scored_items all_items preferences)).length := by
    rw [score_sort_length]
    simpa [scored_items] using List.length_pos.mpr hne
  obtain ⟨p, rest, hcons⟩ :
      ∃ p rest, (score_sort (scored_items all_items preferences)).take limit = p :: rest := by
    cases htake : (score_sort (scored_items all_items preferences)).take limit with
    | nil =>
      exfalso
      rcases List.take_eq_nil_iff.mp htake with h0 | h0
      · exact absurd h0 (Nat.pos_iff_ne_zero.mp hlim)
      · rw [h0] at hlen
        exact absurd hlen (by simp)
    | cons p rest => exact ⟨p, rest, rfl⟩
  obtain ⟨e, he⟩ := build_recommendations_cons_error
    (((score_sort (scored_items all_items preferences)).drop limit).take 2) p rest
  refine ⟨e, ?_⟩
  simp only [get_recommendations_attempt]
  rw [hcons]
  exact he

/-- Claim C2 witness: a singleton catalog with default preferences. -/
theorem claim_C2_witness :
    (∃ e, get_recommendations_attempt [base_item] default_preferences 3 = .error e) ∧
    get_recommendations [base_item] default_preferences 3 = [] ∧
    update_filtered_meals [base_item] default_preferences = .ok [] := by
  have h := claim_C2_recommendations_always_empty [base_item] default_preferences 3
  exact ⟨h.1 (by simp) (by norm_num), h.2.1, h.2.2⟩

/-- Claim C1 counterexample: a vegetarian item whose allergen set contains
"peanuts", scored against preferences declaring the allergy "peanuts" (and a
matching dietary restriction), receives score 1, not 0 — the scorer never
reads the allergies field. -/
theorem claim_C1_counterexample :
    prefs_allergic.allergies = ["peanuts"] ∧
    item_with_peanuts.allergens = ["peanuts"] ∧
    calculate_preference_score item_with_peanuts prefs_allergic = 1 := by
  refine ⟨rfl, rfl, ?_⟩
  have hc : List.countP (dietary_matches item_with_peanuts) ["vegetarian"] = 1 := by decide
  norm_num [calculate_preference_score, price_facet, dietary_facet, spice_facet,
    cuisine_facet, disliked_ingredients_facet, dislike_hits, hc, prefs_allergic,
    List.countP_nil]

/-- Claim C1 (amended): for every item and preferences whose allergies
intersect the item's allergen set, the preference score is the same as with
no allergies declared (the scorer ignores the allergies facet, so it is not
forced to 0), while the item is nevertheless absent from the output of
`get_recommendations` — vacuously, because that output is always the empty
list. -/
theorem claim_C1_amended :
    ∀ (item : MenuItem) (preferences : UserPreferences),
      preferences.allergies ≠ [] →
      (∃ a, a ∈ preferences.allergies ∧ a ∈ item.allergens) →
      calculate_preference_score item preferences =
        calculate_preference_score item { preferences with allergies := [] } ∧
      ∀ (all_items : List MenuItem) (limit : Nat),
        (get_recommendations all_items preferences limit).map (·.meal) = [] ∧
        item ∉ (get_recommendations all_items preferences limit).map (·.meal) := by
  intro item preferences _ _
  refine ⟨rfl, ?_⟩
  intro all_items limit
  rw [get_recommendations_empty]
  exact ⟨rfl, by simp⟩

/-- Claim C1 witness: the concrete allergic preferences and peanut item. -/
theorem claim_C1_witness :
    calculate_preference_score item_with_peanuts prefs_allergic =
      calculate_preference_score item_with_peanuts { prefs_allergic with allergies := [] } ∧
    ∀ (all_items : List MenuItem) (limit : Nat),
      (get_recommendations all_items prefs_allergic limit).map (·.meal) = [] ∧
      item_with_peanuts ∉ (get_recommendations all_items prefs_allergic limit).map (·.meal) :=
  claim_C1_amended item_with_peanuts prefs_allergic (by decide)
    ⟨"peanuts", by decide, by decide⟩

/-- Claim C4 counterexample: with the admissible preference object whose
price range is (-10, -5), the neutral item (price 10) scores 4, outside
[0, 1]: the out-of-range branch divides by the negative `max_price`. -/
theorem claim_C4_counterexample :
    1 < calculate_preference_score base_item prefs_negative_range := by
  norm_num [calculate_preference_score, price_facet, dietary_facet, spice_facet,
    cuisine_facet, disliked_ingredients_facet, dislike_hits, List.countP_nil,
    base_item, prefs_negative_range]

/-- Claim C4 (amended): the preference score lies in [0, 1] for every item
and every preference object whose price range, when set, has a positive
maximum (the source divides by `max_price` in the out-of-range branch, so a
zero maximum raises `ZeroDivisionError` and a negative one breaks the
bound). -/
theorem claim_C4_amended :
    ∀ (item : MenuItem) (preferences : UserPreferences),
      (∀ mn mx, preferences.price_range = some (mn, mx) → 0 < mx) →
      0 ≤ calculate_preference_score item preferences ∧
        calculate_preference_score item preferences ≤ 1 := by
  intro item preferences h
  obtain ⟨p0, p1⟩ := price_facet_bounds item preferences h
  obtain ⟨d0, d1⟩ := dietary_facet_bounds item preferences
  obtain ⟨s0, s1⟩ := spice_facet_bounds item preferences
  obtain ⟨c0, c1⟩ := cuisine_facet_bounds item preferences
  obtain ⟨i0, i1⟩ := disliked_facet_bounds item preferences
  simp only [calculate_preference_score]
  have ht0 : (0 : Rat) ≤ (1/2 : Rat) ^ dislike_hits item preferences := by positivity
  have ht1 : ((1/2 : Rat)) ^ dislike_hits item preferences ≤ 1 :=
    pow_le_one₀ (by norm_num) (by norm_num)
  have hs0 : 0 ≤ (price_facet item preferences).1 + (dietary_facet item preferences).1 +
      (spice_facet item preferences).1 + (cuisine_facet item preferences).1 +
      (disliked_ingredients_facet item preferences).1 := by linarith
  have hsW : (price_facet item preferences).1 + (dietary_facet item preferences).1 +
      (spice_facet item preferences).1 + (cuisine_facet item preferences).1 +
      (disliked_ingredients_facet item preferences).1 ≤
      (price_facet item preferences).2 + (dietary_facet item preferences).2 +
      (spice_facet item preferences).2 + (cuisine_facet item preferences).2 +
      (disliked_ingredients_facet item preferences).2 := by linarith
  split
  case isTrue hW =>
    constructor
    · exact div_nonneg (mul_nonneg hs0 ht0) hW.le
    · rw [div_le_one hW]
      calc ((price_facet item preferences).1 + (dietary_facet item preferences).1 +
            (spice_facet item preferences).1 + (cuisine_facet item preferences).1 +
            (disliked_ingredients_facet item preferences).1) *
            (1/2 : Rat) ^ dislike_hits item preferences
          ≤ (price_facet item preferences).1 + (dietary_facet item preferences).1 +
            (spice_facet item preferences).1 + (cuisine_facet item preferences).1 +
            (disliked_ingredients_facet item preferences).1 :=
            mul_le_of_le_one_right hs0 ht1
        _ ≤ _ := hsW
  case isFalse => norm_num

/-- Claim C4 witness: the neutral item against an ordinary positive price
range. -/
theorem claim_C4_witness :
    0 ≤ calculate_preference_score base_item prefs_unit_range ∧
      calculate_preference_score base_item prefs_unit_range ≤ 1 :=
  claim_C4_amended base_item prefs_unit_range (by
    intro mn mx hmx
    simp only [prefs_unit_range, Option.some.injEq, Prod.mk.injEq] at hmx
    rw [← hmx.2]
    norm_num)

/-- Claim C5 counterexample: with only the price facet set (range (10, 20))
and an item priced 21, the claimed formula (price binary, weight 0.25) gives
0, but the source computes 19/20: the price facet is weighted 0.30 and gives
partial credit outside the range. -/
theorem claim_C5_counterexample :
    calculate_preference_score item_price_21 prefs_price_only = 19/20 ∧
    claim_weighted_score item_price_21 "" prefs_price_only = 0 ∧
    calculate_preference_score item_price_21 prefs_price_only ≠
      claim_weighted_score item_price_21 "" prefs_price_only := by
  have h1 : calculate_preference_score item_price_21 prefs_price_only = 19/20 := by
    norm_num [calculate_preference_score, price_facet, dietary_facet, spice_facet,
      cuisine_facet, disliked_ingredients_facet, dislike_hits, List.countP_nil,
      item_price_21, prefs_price_only, base_item]
  have h2 : claim_weighted_score item_price_21 "" prefs_price_only = 0 := by
    norm_num [claim_weighted_score, item_price_21, prefs_price_only, base_item]
  refine ⟨h1, h2, ?_⟩
  rw [h1, h2]
  norm_num

set_option maxHeartbeats 1600000 in
/-- Claim C5 (amended): the score the source computes is the normalised
weighted sum `amended_weighted_score`: price 0.30 with partial credit
outside the range, dietary match ratio 0.25, spice closeness 0.15 (skipped
for a zero preference), description-substring cuisine ratio 0.20, binary
disliked-ingredients facet 0.10, and one halving per matched dislike before
normalisation by the sum of applied weights. -/
theorem claim_C5_amended :
    ∀ (item : MenuItem) (preferences : UserPreferences),
      calculate_preference_score item preferences = amended_weighted_score item preferences := by
  intro item preferences
  rcases hsp : preferences.spice_preference with _ | sp
  · rcases hpr : preferences.price_range with _ | ⟨mn, mx⟩ <;>
    by_cases hd : preferences.dietary_restrictions.isEmpty <;>
    by_cases hc : preferences.favorite_cuisines.isEmpty <;>
    by_cases hi : preferences.disliked_ingredients.isEmpty <;>
    norm_num [calculate_preference_score, amended_weighted_score, price_facet,
      dietary_facet, spice_facet, cuisine_facet, disliked_ingredients_facet,
      hsp, hpr, hd, hc, hi] <;>
    ring_nf
  · by_cases hz : sp == 0
    · rcases hpr : preferences.price_range with _ | ⟨mn, mx⟩ <;>
      by_cases hd : preferences.dietary_restrictions.isEmpty <;>
      by_cases hc : preferences.favorite_cuisines.isEmpty <;>
      by_cases hi : preferences.disliked_ingredients.isEmpty <;>
      norm_num [calculate_preference_score, amended_weighted_score, price_facet,
        dietary_facet, spice_facet, cuisine_facet, disliked_ingredients_facet,
        hsp, hz, hpr, hd, hc, hi] <;>
      ring_nf
    · rcases hpr : preferences.price_range with _ | ⟨mn, mx⟩ <;>
      by_cases hd : preferences.dietary_restrictions.isEmpty <;>
      by_cases hc : preferences.favorite_cuisines.isEmpty <;>
      by_cases hi : preferences.disliked_ingredients.isEmpty <;>
      norm_num [calculate_preference_score, amended_weighted_score, price_facet,
        dietary_facet, spice_facet, cuisine_facet, disliked_ingredients_facet,
        hsp, hz, hpr, hd, hc, hi] <;>
      ring_nf

/-- Claim C3: end-to-end scenario A fails on the code.  With sufficient
preferences (vegetarian, price 10–20, italian) and a catalog whose
vegetarian Italian dish outscores the non-vegetarian one,
`start_conversation` still returns the generic welcome with no suggested
meals for every generation oracle: `get_recommendations` always raises
internally and `filtered_meals` comes back empty, so the surfacing branch is
dead code. -/
theorem claim_C3_scenario_a :
    ∀ (oracle : LLMOracle) (sid : String),
      start_conversation oracle [margherita, chicken_dish] sid (some prefs_scenario_a) =
        .ok ({ messages := [], preferences := prefs_scenario_a, filtered_meals := [],
               shown_index := none },
             { message := oracle.welcome, session_id := sid, suggested_meals := none,
               follow_up_questions := some start_follow_up_questions, metadata := none }) ∧
      preferences_are_sufficient prefs_scenario_a = true ∧
      calculate_preference_score chicken_dish prefs_scenario_a <
        calculate_preference_score margherita prefs_scenario_a := by
  intro oracle sid
  refine ⟨?_, by decide, ?_⟩
  · simp only [start_conversation, update_filtered_meals_ok, Option.getD_some]
  · have hm1 : List.countP (dietary_matches margherita) ["vegetarian"] = 1 := by decide
    have hm2 : List.countP (dietary_matches chicken_dish) ["vegetarian"] = 0 := by decide
    have hm3 : List.countP
        (fun c => pyIn (py_lower c) (py_lower margherita.description)) ["italian"] = 1 := by
      decide
    have hm4 : List.countP
        (fun c => pyIn (py_lower c) (py_lower chicken_dish.description)) ["italian"] = 0 := by
      decide
    have hm5 : dislike_hits margherita prefs_scenario_a = 0 := by decide
    have hm6 : dislike_hits chicken_dish prefs_scenario_a = 0 := by decide
    norm_num [calculate_preference_score, price_facet, dietary_facet, spice_facet,
      cuisine_facet, disliked_ingredients_facet, hm1, hm2, hm3, hm4, hm5, hm6,
      show prefs_scenario_a.price_range = some ((10 : Rat), (20 : Rat)) from rfl,
      show prefs_scenario_a.dietary_restrictions = ["vegetarian"] from rfl,
      show prefs_scenario_a.favorite_cuisines = ["italian"] from rfl,
      show prefs_scenario_a.spice_preference = none from rfl,
      show prefs_scenario_a.disliked_ingredients = [] from rfl,
      show margherita.price = 1499/100 from rfl,
      show chicken_dish.price = 12 from rfl]

/-- Claim C8: in any session whose cursor has reached or passed the end of
`filtered_meals`, a turn whose message matches a more-options phrase (with
or without a new preference payload) keeps the session exhausted —
the cursor stays at or beyond the end of the candidate list — and any reply
it returns carries an empty suggested-meals list. -/
theorem claim_C8_exhausted_stays :
    ∀ (oracle : LLMOracle) (all_items : List MenuItem) (sid : String) (s : Session)
      (message : String) (preferences : Option UserPreferences) (i : Nat)
      (s2 : Session) (resp : ChatResponse),
      matches_any more_options_phrases message = true →
      s.shown_index = some i →
      s.filtered_meals.length ≤ i →
      process_message oracle all_items sid s message preferences = .ok (s2, resp) →
      (∃ j, s2.shown_index = some j ∧ s2.filtered_meals.length ≤ j) ∧
        resp.suggested_meals = some [] := by
  intro oracle all_items sid s message preferences i s2 resp hm hsi hlen h
  unfold process_message at h
  rcases preferences with _ | p
  · exact process_turn_exhausted _ _ _ _ _ _ _ i hm hsi hlen h
  · dsimp only at h
    rw [update_filtered_meals_ok] at h
    exact process_turn_exhausted oracle all_items sid
      { messages := s.messages, preferences := p, filtered_meals := [],
        shown_index := s.shown_index } message s2 resp i hm hsi (Nat.zero_le i) h

/-- Claim C8 witness: an exhausted session receiving "more options". -/
theorem claim_C8_witness :
    (∃ j, session_exhausted_next.shown_index = some j ∧
        session_exhausted_next.filtered_meals.length ≤ j) ∧
      response_exhausted.suggested_meals = some [] :=
  claim_C8_exhausted_stays oracle0 [] "s" session_exhausted "more options" none 5
    session_exhausted_next response_exhausted (by decide) rfl (by decide) (by decide)

/-- Claim C9 counterexample: a reachable two-turn run.  "show me more"
advances the cursor to 1; the next turn supplies a new (sufficient)
preference payload, which replaces the preferences and recomputes
`filtered_meals`, yet leaves the cursor at 1 — it is not reset to 0. -/
theorem claim_C9_counterexample :
    process_message oracle0 [] "s" session_fresh "show me more" none =
      .ok (session_after_more,
        { message := exhausted_message, session_id := "s", suggested_meals := some [],
          follow_up_questions := some exhausted_follow_up, metadata := none }) ∧
    process_message oracle0 [] "s" session_after_more "hello there" (some prefs_supplied) =
      .ok (session_after_prefs,
        { message := "Okay.", session_id := "s", suggested_meals := none,
          follow_up_questions := some [], metadata := none }) ∧
    session_after_prefs.shown_index = some 1 ∧ some 1 ≠ (some 0 : Option Nat) := by
  exact ⟨by decide, by decide, rfl, by decide⟩

/-- Claim C9 (amended): within a session the cursor never decreases from one
completed turn to the next; a turn that supplies a preference payload
replaces the session preferences and recomputes `filtered_meals` through
`_update_filtered_meals`, but does not reset the cursor: it keeps its value
(or advances by one on a more-options turn). -/
theorem claim_C9_amended :
    ∀ (oracle : LLMOracle) (all_items : List MenuItem) (sid : String) (s : Session)
      (message : String) (preferences : Option UserPreferences) (s2 : Session)
      (resp : ChatResponse),
      process_message oracle all_items sid s message preferences = .ok (s2, resp) →
      (∀ i j, s.shown_index = some i → s2.shown_index = some j → i ≤ j) ∧
      (∀ p, preferences = some p →
        s2.preferences = p ∧ update_filtered_meals all_items p = .ok s2.filtered_meals ∧
        ∀ i, s.shown_index = some i →
          (s2.shown_index = some i ∨ s2.shown_index = some (i + 1))) := by
  intro oracle all_items sid s message preferences s2 resp h
  unfold process_message at h
  rcases preferences with _ | p
  · obtain ⟨hpref, hfil, hsh⟩ := process_turn_state _ _ _ _ _ _ _ h
    constructor
    · intro i j hi hj
      rw [hi] at hsh
      rcases hsh with h1 | h1 <;> rw [hj] at h1 <;>
        simp only [Option.getD_some, Option.some.injEq] at h1 <;> omega
    · intro p hp
      exact absurd hp (by simp)
  · dsimp only at h
    rw [update_filtered_meals_ok] at h
    obtain ⟨hpref, hfil, hsh⟩ := process_turn_state _ _ _ _ _ _ _ h
    dsimp only at hpref hfil hsh
    constructor
    · intro i j hi hj
      rw [hi] at hsh
      rcases hsh with h1 | h1 <;> rw [hj] at h1 <;>
        simp only [Option.getD_some, Option.some.injEq] at h1 <;> omega
    · intro q hq
      injection hq with hq'
      subst hq'
      refine ⟨hpref, ?_, ?_⟩
      · rw [update_filtered_meals_ok, hfil]
      · intro i hi
        rw [hi] at hsh
        simpa using hsh

/-- Claim C9 witness: instantiation of the amended claim on the concrete
second turn of the counterexample run. -/
theorem claim_C9_witness :
    (∀ i j, session_after_more.shown_index = some i →
        session_after_prefs.shown_index = some j → i ≤ j) ∧
    (session_after_prefs.preferences = prefs_supplied ∧
      update_filtered_meals [] prefs_supplied = .ok session_after_prefs.filtered_meals ∧
      ∀ i, session_after_more.shown_index = some i →
        (session_after_prefs.shown_index = some i ∨
         session_after_prefs.shown_index = some (i + 1))) := by
  have h := claim_C9_amended oracle0 [] "s" session_after_more "hello there"
    (some prefs_supplied) session_after_prefs
    { message := "Okay.", session_id := "s", suggested_meals := none,
      follow_up_questions := some [], metadata := none } (by decide)
  exact ⟨h.1, h.2 prefs_supplied rfl⟩

/-- Claim C10 counterexample: with the Ollama fallback disabled in the
settings (an admissible configuration), a single Gemini failure is re-raised
even though the secondary backend would have succeeded on the same call — so
`generate_response` does not raise only when both providers fail. -/
theorem claim_C10_counterexample :
    settings_no_fallback.use_ollama_fallback = false ∧
    llm_state0.ollama_available = true ∧
    (generate_response settings_no_fallback llm_state0 true
        (.failure "Gemini 429") (.success "hello")).2 = .error "Gemini 429" := by
  exact ⟨rfl, rfl, by decide⟩

/-- Claim C10 (amended): when fallback is enabled (both the `use_fallback`
argument and the settings flag) and both backend services are initialised,
`generate_response` raises only when both providers fail on the same call;
when the (post-switch) active provider is Gemini and it fails, the error
counter is incremented and an Ollama success serves the same call with
`fallback_used = true`; and before each call, once the error counter has
reached the threshold, the active provider is forced to Ollama. -/
theorem claim_C10_amended :
    ∀ (settings : LLMSettings) (st : LLMState) (gem oll : LLMCallOutcome),
      settings.use_ollama_fallback = true →
      st.gemini_available = true →
      st.ollama_available = true →
      (∀ e, (generate_response settings st true gem oll).2 = .error e →
        (∃ ge, gem = .failure ge) ∧ (∃ oe, oll = .failure oe)) ∧
      ((force_fallback settings st).current_provider = .gemini →
        ∀ ge, gem = .failure ge →
          (generate_response settings st true gem oll).1.consecutive_errors =
            st.consecutive_errors + 1 ∧
          ∀ t, oll = .success t →
            (generate_response settings st true gem oll).2 =
              .ok { response := t, provider := .ollama, fallback_used := true }) ∧
      (settings.fallback_threshold_errors ≤ st.consecutive_errors →
        (force_fallback settings st).current_provider = .ollama) := by
  intro settings st gem oll huf hg ho
  have hforce : ∀ b : LLMState, force_fallback settings st = b →
      b.consecutive_errors = st.consecutive_errors ∧ b.gemini_available = true ∧
      b.ollama_available = true := by
    intro b hb
    unfold force_fallback at hb
    split at hb <;> rw [← hb] <;> simp [hg, ho]
  obtain ⟨hbe, hbg, hbo⟩ := hforce (force_fallback settings st) rfl
  refine ⟨?_, ?_, ?_⟩
  · intro e he
    by_cases hcp : (force_fallback settings st).current_provider = .gemini <;>
      cases gem <;> cases oll <;>
      simp [generate_response, hcp, hbg, hbo, huf] at he <;>
      exact ⟨⟨_, rfl⟩, ⟨_, rfl⟩⟩
  · intro hcp ge hge
    subst hge
    constructor
    · cases oll <;> simp [generate_response, hcp, hbg, hbo, huf, hbe]
    · intro t ht
      subst ht
      simp [generate_response, hcp, hbg, hbo, huf]
  · intro hth
    unfold force_fallback
    rw [if_pos ⟨hth, huf⟩]

/-- Claim C10 witness: default settings, healthy initial state, Gemini
failing, Ollama succeeding — the call is served by Ollama with
`fallback_used = true` and the error counter incremented. -/
theorem claim_C10_witness :
    (generate_response settings_default llm_state0 true
        (.failure "g") (.success "t")).1.consecutive_errors =
      llm_state0.consecutive_errors + 1 ∧
    (generate_response settings_default llm_state0 true
        (.failure "g") (.success "t")).2 =
      .ok { response := "t", provider := .ollama, fallback_used := true } := by
  have h := claim_C10_amended settings_default llm_state0 (.failure "g") (.success "t")
    rfl rfl rfl
  have h2 := h.2.1 (by decide) "g" rfl
  exact ⟨h2.1, h2.2 "t" rfl⟩
